import Mathlib

/-!
Verification development for the palisade-api gateway: a shallow embedding of
the request-admission pipeline (key verification, token-bucket rate limiting,
response capture, audit logging) together with theorems settling the spec's
claims about it.

Conventions of the embedding:
* `hashlib.sha256((salt + plaintext).encode()).hexdigest()` is an external
  one-way digest; it is modelled by an arbitrary function
  `digest : String → String` passed as a parameter, applied to `salt ++ plaintext`.
* Python floats (token counts, timestamps) are modelled as rationals.
* Python exceptions are modelled with `Except Unit`; a `try/except: pass`
  block is modelled by pattern matching on that `Except`.
* The SQLAlchemy stores (api-key table, request-log table) are modelled as
  Lean lists of records; the in-memory `_buckets` dict is modelled as a
  function `String → Option (ℚ × ℚ)`.
-/

namespace Palisade

/-! ## src/key_utils.py -/

/-- `hash_key(salt, plaintext) = sha256((salt + plaintext).encode()).hexdigest()`,
with the sha256 hexdigest abstracted as `digest`. -/
def hash_key (digest : String → String) (salt plaintext : String) : String :=
  digest (salt ++ plaintext)

/-- `generate_key(prefix, nbytes)`: `raw = secrets.token_urlsafe(nbytes)` is the
random url-safe token (passed in as the parameter `raw`; it is the empty string
exactly when `nbytes = 0`), `salt = secrets.token_hex(16)` (passed in as `salt`),
`plaintext = prefix + raw`, and the returned hash is
`sha256(salt + plaintext)`.  (`pfx` stands for the source's `prefix` argument.) -/
def generate_key (digest : String → String) ( pfx raw salt : String) :
    String × String × String :=
  let plaintext := pfx ++ raw
  (plaintext, salt, digest (salt ++ plaintext))

/-! ## src/db.py — ApiKey and RequestLog rows -/

/-- A row of the `palisade_api_keys` table (the fields the verifier reads).
`pfx` models the source column `prefix`. -/
structure ApiKeyRec where
  id : ℕ
  name : Option String
  key_salt : String
  key_hash : String
  pfx : String
  is_active : Bool
deriving DecidableEq, Repr

/-- A row of the `palisade_request_logs` table, as declared in `src/db.py`. -/
structure RequestLogRec where
  api_key_id : Option ℕ
  endpoint : String
  request_size_bytes : ℕ
  status_code : ℕ
  duration_ms : ℕ
  moderation_result : String
deriving DecidableEq, Repr

/-- The mapped attribute names of the `RequestLog` declarative model
(`src/db.py`): these are the only keyword arguments its constructor accepts. -/
def requestLogColumns : List String :=
  ["id", "api_key_id", "endpoint", "request_size_bytes", "status_code",
   "duration_ms", "moderation_result", "created_at"]

/-- The keyword arguments `_log_usage` (`src/routes.py`) passes to
`RequestLog(...)`. -/
def logUsageKwargs : List String :=
  ["api_key_id", "endpoint", "size_bytes", "status_code", "duration_ms",
   "payload_json"]

/-- SQLAlchemy's declarative constructor raises `TypeError` unless every
keyword names a mapped attribute; this decides whether the `RequestLog(...)`
call in `_log_usage` succeeds. -/
def ctorAccepts : Bool :=
  logUsageKwargs.all (fun k => requestLogColumns.contains k)

/-! ## src/routes.py — get_api_key -/

/-- Result of the `get_api_key` dependency: a DB-backed match (binds
`request.state.api_key_id = rec.id`), dev mode (`PALISADE_API_KEYS` empty;
null identity, returns the literal `"dev-mode"`), an env allow-list match
(null identity), or the 401 `HTTPException`. -/
inductive AuthOutcome where
  | matched (rec : ApiKeyRec)
  | devMode
  | envAccepted
  | unauthenticated
deriving DecidableEq, Repr

/-- The scan inside `get_api_key`: query rows with `is_active == True`, return
the first whose stored hash matches `hash_key(rec.key_salt, api_key)`. -/
def verifyScan (digest : String → String) (keys : List ApiKeyRec)
    (apiKey : String) : Option ApiKeyRec :=
  (keys.filter (fun rec => rec.is_active)).find?
    (fun rec => hash_key digest rec.key_salt apiKey == rec.key_hash)

/-- The `if api_key:` guard around the DB scan: an absent header (`none`) or
an empty string is falsy, so the scan is skipped. -/
def scanIfPresented (digest : String → String) (keys : List ApiKeyRec) :
    Option String → Option ApiKeyRec
  | some k => if k ≠ "" then verifyScan digest keys k else none
  | none => none

/-- `get_api_key(request, api_key)` from `src/routes.py`.  `apiKey = none`
models an absent `x-api-key` header; the `if api_key:` truthiness test also
rejects the empty string.  `envKeys` is `PALISADE_API_KEYS` from
`src/config.py`. -/
def getApiKey (digest : String → String) (keys : List ApiKeyRec)
    (envKeys : List String) (apiKey : Option String) : AuthOutcome :=
  match scanIfPresented digest keys apiKey with
  | some rec => .matched rec
  | none =>
    if envKeys = [] then .devMode
    else
      match apiKey with
      | some k => if k ≠ "" ∧ k ∈ envKeys then .envAccepted else .unauthenticated
      | none => .unauthenticated

/-! ## src/routes_keys.py — revocation -/

/-- Revocation (`revoke_self` / `admin_revoke`): set `is_active = False` on the
record with the given id.  (Ids are the primary key, so mapping over the list
touches exactly the matching row.) -/
def revoke (keys : List ApiKeyRec) (kid : ℕ) : List ApiKeyRec :=
  keys.map (fun r => if r.id = kid then { r with is_active := false } else r)

/-- A sequence of presentations of secrets to `get_api_key`.  Verification
reads the key table and never writes it, so each presentation sees the same
store. -/
def presentations (digest : String → String) (keys : List ApiKeyRec)
    (envKeys : List String) (secrets : List String) : List AuthOutcome :=
  secrets.map (fun s => getApiKey digest keys envKeys (some s))

/-! ## src/routes.py — rate_limit (per-key token bucket) -/

/-- `RATE_LIMIT_RPM` (`src/config.py` default 60, re-clamped in
`src/routes.py` by `max(1, int(RATE_LIMIT_RPM))`). -/
def RATE_LIMIT_RPM : ℕ := max 1 60

/-- `RATE_LIMIT_BURST = max(1, int(max(1, RATE_LIMIT_RPM // 2)))`. -/
def RATE_LIMIT_BURST : ℕ := max 1 (max 1 (RATE_LIMIT_RPM / 2))

/-- The `_buckets` dict: per key, `(tokens, last_refill_time)`. -/
def Buckets : Type := String → Option (ℚ × ℚ)

/-- Generic token-bucket parameters: `capacity` and `refill_per_sec =
RATE_LIMIT_RPM / window_seconds`. -/
structure RLConfig where
  capacity : ℚ
  refillPerSec : ℚ
deriving Repr

/-- The configuration the source actually runs with: `capacity =
RATE_LIMIT_BURST = 30`, `refill_per_sec = RATE_LIMIT_RPM / 60.0 = 1`. -/
def rlConfig : RLConfig :=
  { capacity := (RATE_LIMIT_BURST : ℚ), refillPerSec := (RATE_LIMIT_RPM : ℚ) / 60 }

/-- The refill computation of `rate_limit`: look up `(tokens, last)` for the
key, defaulting to `(capacity, now)` on first sight, and apply
`tokens = min(capacity, tokens + (now - last) * refill_per_sec)`. -/
def refilledTokens (cfg : RLConfig) (b : Buckets) (apiKey : String) (now : ℚ) : ℚ :=
  min cfg.capacity (((b apiKey).getD (cfg.capacity, now)).1 +
    (now - ((b apiKey).getD (cfg.capacity, now)).2) * cfg.refillPerSec)

/-- One call of `rate_limit` (`src/routes.py` lines 48–59) for `apiKey` at
wall-clock time `now`: apply the lazy refill, then either reject (raising 429
*before* any store write, so the dict is untouched) or consume one token and
store `(tokens - 1.0, now)`.  Returns `(admitted?, new buckets)`. -/
def rateLimitStep (cfg : RLConfig) (b : Buckets) (apiKey : String) (now : ℚ) :
    Bool × Buckets :=
  if refilledTokens cfg b apiKey now < 1 then (false, b)
  else (true, fun k =>
    if k = apiKey then some (refilledTokens cfg b apiKey now - 1, now) else b k)

/-- Run a sequence of admission checks `(apiKey, now)` against the bucket
state, collecting the decisions. -/
def runChecks (cfg : RLConfig) (b : Buckets) :
    List (String × ℚ) → List Bool × Buckets
  | [] => ([], b)
  | (k, t) :: rest =>
    let step := rateLimitStep cfg b k t
    let tail := runChecks cfg step.2 rest
    (step.1 :: tail.1, tail.2)

/-- The empty bucket map (process start: no caller seen yet). -/
def emptyBuckets : Buckets := fun _ => none

/-! ## src/routes.py — _log_usage (audit logger) -/

/-- The body of `_log_usage`'s outer `try`: `SessionLocal()` (may fail:
`sessionOk`), `json.dumps(details, ...)` (may fail: `serializeOk`), the
`RequestLog(...)` constructor (fails unless every keyword names a mapped
attribute — `ctorAccepts`), then `db.add(log); db.commit()` (may fail:
`dbOk`).  `.error ()` is a raised Python exception. -/
def logUsageAttempt (sessionOk serializeOk dbOk : Bool)
    (store : List RequestLogRec) (rec : RequestLogRec) :
    Except Unit (List RequestLogRec) :=
  if sessionOk = false then .error ()
  else if serializeOk = false then .error ()
  else if ctorAccepts = false then .error ()
  else if dbOk = false then .error ()
  else .ok (store ++ [rec])

/-- `_log_usage` as its caller sees it: the whole attempt is wrapped in
`try: ... except Exception: pass` (then a `print` that does not touch the
store), so a raised exception leaves the store unchanged and nothing
propagates.  The result is the request-log table after the call; `.error`
would mean an exception escaping to the caller. -/
def logUsage (sessionOk serializeOk dbOk : Bool)
    (store : List RequestLogRec) (rec : RequestLogRec) :
    Except Unit (List RequestLogRec) :=
  match logUsageAttempt sessionOk serializeOk dbOk store rec with
  | .ok s => .ok s
  | .error _ => .ok store

/-- A caller-visible HTTP response (status code and body bytes as text). -/
structure HttpResponse where
  status_code : ℕ
  body : String
deriving DecidableEq, Repr

/-- The tail of every moderation handler: the response dict is already
determined, `_log_usage(...)` is invoked (its return value is unused), and
the response is returned.  Yields the response handed to the transport and
the request-log table afterwards. -/
def respondAndLog (resp : HttpResponse) (sessionOk serializeOk dbOk : Bool)
    (store : List RequestLogRec) (rec : RequestLogRec) :
    HttpResponse × List RequestLogRec :=
  (resp, match logUsage sessionOk serializeOk dbOk store rec with
         | .ok s => s
         | .error _ => store)

/-! ## src/main.py — LoggingMiddleware response capture -/

/-- A starlette response as the middleware sees it: the body iterator's
chunks (bytes modelled as `List ℕ`), the status code, and headers. -/
structure CapturedResponse where
  chunks : List (List ℕ)
  status_code : ℕ
  headers : List (String × String)
deriving DecidableEq, Repr

/-- `resp_body = b""; async for chunk in response.body_iterator: resp_body += chunk`. -/
def flattenChunks (cs : List (List ℕ)) : List ℕ :=
  cs.foldl (fun acc c => acc ++ c) []

/-- The response-capture portion of `LoggingMiddleware.dispatch`
(`src/main.py` lines 80–99): drain the body iterator into `resp_body`,
replace the iterator with the single-chunk iterator over `resp_body`, leave
the status code alone, and add the `x-request-id` header. -/
def dispatchCapture (resp : CapturedResponse) (reqId : String) :
    CapturedResponse :=
  let respBody := flattenChunks resp.chunks
  { chunks := [respBody]
    status_code := resp.status_code
    headers := resp.headers ++ [("x-request-id", reqId)] }

/-! ## src/routes.py — _extract_json and verdict post-processing -/

/-- A decoded JSON value as `json.loads` produces it (numbers as rationals). -/
inductive Json where
  | null
  | bool (b : Bool)
  | num (q : ℚ)
  | str (s : String)
  | arr (xs : List Json)
  | obj (kvs : List (String × Json))
deriving Repr

/-- Python truthiness of a decoded JSON value (`bool(x)` / `x or {}`). -/
def pyTruthy : Json → Bool
  | .null => false
  | .bool b => b
  | .num q => q != 0
  | .str s => s != ""
  | .arr xs => !xs.isEmpty
  | .obj kvs => !kvs.isEmpty

/-- `parsed.get(key, default)`: a dict lookup with a default; calling `.get`
on a non-dict raises `AttributeError` (`.error ()`). -/
def dictGet (v : Json) (key : String) (dflt : Json) : Except Unit Json :=
  match v with
  | .obj kvs => .ok (((kvs.find? (fun kv => kv.1 == key)).map (fun kv => kv.2)).getD dflt)
  | _ => .error ()

/-- `float(x)` on a decoded JSON value: numbers pass through, booleans become
0/1, everything else raises (numeric strings, which would succeed, are
resolved by the extra parameter `floatOfStr`). -/
def pyFloat (floatOfStr : String → Option ℚ) : Json → Option ℚ
  | .num q => some q
  | .bool b => some (if b then 1 else 0)
  | .str s => floatOfStr s
  | _ => none

/-- `_extract_json(text)` (`src/routes.py` lines 96–110).  `loads` is
`json.loads` restricted to this text (`none` = `json.JSONDecodeError`).
Empty/None text returns `\x7b\x7d` at once.  When `json.loads` fails, the code
reaches `re.search(r'...(?R)...')`: the recursive extension `(?R)` is not
supported by Python's `re` module, so the call raises `re.error` — the
function never reaches its documented `\x7b\x7d` fallback and instead
propagates an exception (`.error ()`). -/
def extractJson (loads : String → Option Json) (text : String) :
    Except Unit Json :=
  if text = "" then .ok (.obj [])
  else
    match loads text with
    | some v => .ok v
    | none => .error ()

/-- The response dict built by `/moderate/image` (fields as the handler
leaves them; `categories` and `suggested_action` are whatever JSON values
were found). -/
structure ImageVerdict where
  safe : Bool
  categories : Json
  confidence : ℚ
  suggested_action : Json
deriving Repr

/-- The post-collaborator processing of `moderate_image` (`src/routes.py`
lines 297–332): `parsed = _extract_json(result_text) or \x7b\x7d`, then the
`.get` defaults `safe=True`, `categories=[]`, `confidence=0.0` (via a
guarded `float`), `suggested_action="allow"`.  `.error ()` is an exception
that falls to the handler's generic `except Exception` branch (logged as 500
and mapped by `_map_openai_error`). -/
def moderateImageFromContent (loads : String → Option Json)
    (floatOfStr : String → Option ℚ) (result_text : String) :
    Except Unit ImageVerdict := do
  let parsed0 ← extractJson loads result_text
  let parsed := if pyTruthy parsed0 then parsed0 else .obj []
  let safeV ← dictGet parsed "safe" (.bool true)
  let catsV ← dictGet parsed "categories" (.arr [])
  let confV ← dictGet parsed "confidence" (.num 0)
  let actV ← dictGet parsed "suggested_action" (.str "allow")
  pure { safe := pyTruthy safeV
         categories := catsV
         confidence := (pyFloat floatOfStr confV).getD 0
         suggested_action := actV }

/-- The response dict built by `/moderate/contextual`. -/
structure ContextualVerdict where
  safe : Bool
  risk_factors : Json
  suggested_action : Json
deriving Repr

/-- The post-collaborator processing of `moderate_contextual`
(`src/routes.py` lines 388–417): `parsed = _extract_json(result_text) or
\x7b\x7d`, then `safe = bool(parsed.get("safe", True))`,
`risk_factors = parsed.get("risk_factors", [])`,
`suggested_action = parsed.get("suggested_action", "allow")`. -/
def moderateContextualFromContent (loads : String → Option Json)
    (result_text : String) : Except Unit ContextualVerdict := do
  let parsed0 ← extractJson loads result_text
  let parsed := if pyTruthy parsed0 then parsed0 else .obj []
  let safeV ← dictGet parsed "safe" (.bool true)
  let risksV ← dictGet parsed "risk_factors" (.arr [])
  let actV ← dictGet parsed "suggested_action" (.str "allow")
  pure { safe := pyTruthy safeV
         risk_factors := risksV
         suggested_action := actV }

/-! ## Concrete instances and predicates used by the claims -/

/-- The rate-limiter bucket invariant: every stored entry keeps its token
count within `[0, capacity]`. -/
def BucketsInv (cap : ℚ) (b : Buckets) : Prop :=
  ∀ k tokens last, b k = some (tokens, last) → 0 ≤ tokens ∧ tokens ≤ cap

/-- 31 immediate admission checks for one key followed by one check 2 seconds
later. -/
def c5Checks : List (String × ℚ) :=
  List.replicate 31 ("k", 0) ++ [("k", 2)]

/-- A bucket map with one depleted entry: key "alice" last refilled at time 0
with 0 tokens. -/
def c6Buckets : Buckets :=
  fun k => if k = "alice" then some (0, 0) else none

/-- A concrete stand-in for the sha256 hexdigest (injective on the inputs
used in the concrete instances below). -/
def cDigest : String → String := fun s => "h:" ++ s

/-- A store holding a single active key whose hash matches no presented
secret used below. -/
def c2Keys : List ApiKeyRec :=
  [{ id := 1, name := none, key_salt := "salt1", key_hash := "no-such-hash",
     pfx := "pal_live_", is_active := true }]

/-- A store with two active keys, for secrets "alpha-secret" and
"beta-secret". -/
def c7Keys : List ApiKeyRec :=
  [{ id := 1, name := none, key_salt := "s1",
     key_hash := cDigest ("s1" ++ "alpha-secret"), pfx := "pal_live_",
     is_active := true },
   { id := 2, name := none, key_salt := "s2",
     key_hash := cDigest ("s2" ++ "beta-secret"), pfx := "pal_live_",
     is_active := true }]

/-- The second record of `c7Keys` (untouched by revoking id 1). -/
def c7MatchedRec : ApiKeyRec :=
  { id := 2, name := none, key_salt := "s2",
    key_hash := cDigest ("s2" ++ "beta-secret"), pfx := "pal_live_",
    is_active := true }

/-- The stored row for a key generated with empty prefix and byte size 0
(`secrets.token_urlsafe(0) = ""`): the plaintext is the empty string. -/
def c10FreshRec : ApiKeyRec :=
  { id := 1, name := none, key_salt := "somesalt",
    key_hash := (generate_key cDigest "" "" "somesalt").2.2,
    pfx := "", is_active := true }

/-- The stored row for a key generated with prefix "pal_live_" and a
non-empty random token "r". -/
def c10WitnessRec : ApiKeyRec :=
  { id := 5, name := none, key_salt := "s",
    key_hash := (generate_key cDigest "pal_live_" "r" "s").2.2,
    pfx := "pal_live_", is_active := true }

/-- A `json.loads` that fails on every input (no content is parseable). -/
def noParse : String → Option Json := fun _ => none

/-- A `float(str)` that fails on every input. -/
def noFloat : String → Option ℚ := fun _ => none

/-! ## Theorems -/

/-- With the default environment (`RATE_LIMIT_RPM = 60`), the limiter runs
with capacity 30 and refill rate 1 token per second. -/
theorem rlConfig_eval : rlConfig = { capacity := 30, refillPerSec := 1 } := by
  unfold rlConfig RATE_LIMIT_BURST RATE_LIMIT_RPM
  norm_num

/-- One admission check preserves the bucket invariant (for arbitrary check
times, including non-monotone clocks: a rejection writes nothing, and an
admission stores `min(capacity, ·) - 1` with `min(capacity, ·) ≥ 1`). -/
theorem rateLimitStep_preserves (cfg : RLConfig) (b : Buckets) (key : String)
    (now : ℚ) (hb : BucketsInv cfg.capacity b) :
    BucketsInv cfg.capacity (rateLimitStep cfg b key now).2 := by
  intro k tokens last hk
  unfold rateLimitStep at hk
  by_cases hc : refilledTokens cfg b key now < 1
  · rw [if_pos hc] at hk
    exact hb k tokens last hk
  · rw [if_neg hc] at hk
    by_cases hkey : k = key
    · simp only [hkey, if_pos] at hk
      have hpair : refilledTokens cfg b key now - 1 = tokens ∧ now = last := by
        have := Option.some.inj hk
        exact ⟨congrArg Prod.fst this, congrArg Prod.snd this⟩
      have hge : (1:ℚ) ≤ refilledTokens cfg b key now := not_lt.mp hc
      have hle : refilledTokens cfg b key now ≤ cfg.capacity := min_le_left _ _
      constructor
      · rw [← hpair.1]; linarith
      · rw [← hpair.1]; linarith
    · simp only [if_neg hkey] at hk
      exact hb k tokens last hk

/-- A whole sequence of admission checks preserves the bucket invariant. -/
theorem runChecks_preserves (cfg : RLConfig) (checks : List (String × ℚ)) :
    ∀ b : Buckets, BucketsInv cfg.capacity b →
      BucketsInv cfg.capacity (runChecks cfg b checks).2 := by
  induction checks with
  | nil => exact fun b hb => hb
  | cons c rest ih =>
    intro b hb
    exact ih _ (rateLimitStep_preserves cfg b c.1 c.2 hb)

/-- C4: for every identity, after any finite sequence of admission checks at
arbitrary times (starting from the fresh, empty bucket map), the stored token
count for that identity lies within the closed interval `[0, capacity]`. -/
theorem tokens_within_capacity (cfg : RLConfig) (checks : List (String × ℚ))
    (key : String) (tokens last : ℚ)
    (h : (runChecks cfg emptyBuckets checks).2 key = some (tokens, last)) :
    0 ≤ tokens ∧ tokens ≤ cfg.capacity :=
  runChecks_preserves cfg checks emptyBuckets
    (fun k t l hx => by simp [emptyBuckets] at hx) key tokens last h

/-- Witness for C4: after one admitted check the stored count is 29, which
the theorem places inside `[0, 30]`. -/
theorem tokens_within_capacity_witness :
    (0:ℚ) ≤ 29 ∧ (29:ℚ) ≤ rlConfig.capacity :=
  tokens_within_capacity rlConfig [("k", 0)] "k" 29 0
    (by rw [rlConfig_eval]; with_unfolding_all decide)

/-- C5: with `ratePerMinute = 60` (hence capacity 30 and refill 1 token/s)
and a fresh bucket, 30 consecutive immediate admission checks are admitted,
the 31st immediate check is rejected, and a further check 2 seconds later is
admitted. -/
theorem burst_then_reject_then_refill :
    (runChecks rlConfig emptyBuckets c5Checks).1 =
      List.replicate 30 true ++ [false, true] := by
  rw [rlConfig_eval]
  with_unfolding_all decide

/-- C6 counterexample: at a rejecting admission check ("alice" has 0 tokens
refilled at time 0, checked again at time 1/2) the claim demands the stored
state become `(min(capacity, tokens + elapsed·rate), now) = (1/2, 1/2)`, but
the code raises 429 before any write, leaving the stored state `(0, 0)`. -/
theorem reject_does_not_store_refill :
    (rateLimitStep rlConfig c6Buckets "alice" (mkRat 1 2)).1 = false ∧
    (rateLimitStep rlConfig c6Buckets "alice" (mkRat 1 2)).2 "alice" = some (0, 0) ∧
    (rateLimitStep rlConfig c6Buckets "alice" (mkRat 1 2)).2 "alice" ≠
      some (refilledTokens rlConfig c6Buckets "alice" (mkRat 1 2), mkRat 1 2) := by
  rw [rlConfig_eval]
  with_unfolding_all decide

/-- C6 amended: when an admission check rejects an identity, the stored
bucket map is left completely unchanged — the refill is computed only
transiently and is not written back, and no token is consumed. -/
theorem reject_leaves_state_unchanged (cfg : RLConfig) (b : Buckets)
    (key : String) (now : ℚ)
    (h : (rateLimitStep cfg b key now).1 = false) :
    (rateLimitStep cfg b key now).2 = b := by
  by_cases hc : refilledTokens cfg b key now < 1
  · unfold rateLimitStep
    rw [if_pos hc]
  · unfold rateLimitStep at h
    rw [if_neg hc] at h
    simp at h

/-- Witness for C6: the rejecting check at time 1/2 leaves the bucket map
equal to what it was. -/
theorem reject_leaves_state_unchanged_witness :
    (rateLimitStep rlConfig c6Buckets "alice" (mkRat 1 2)).2 = c6Buckets :=
  reject_leaves_state_unchanged rlConfig c6Buckets "alice" (mkRat 1 2)
    (by rw [rlConfig_eval]; with_unfolding_all decide)

/-- C2 counterexample: the store holds one active key, the presented secret
matches no active record, and the legacy allow-list is empty; the claim
demands Unauthenticated, but `get_api_key` checks only whether
`PALISADE_API_KEYS` is empty — not the store — and enters dev mode. -/
theorem nonempty_store_dev_mode :
    c2Keys ≠ [] ∧
    verifyScan cDigest c2Keys "wrong-secret" = none ∧
    getApiKey cDigest c2Keys [] (some "wrong-secret") = AuthOutcome.devMode := by
  decide

/-- C2 amended: dev mode depends only on the legacy allow-list, not on the
store: when a presented (non-empty) secret matches no active record, the
outcome is dev mode if `PALISADE_API_KEYS` is empty — whatever the store
holds — an allow-list acceptance if the secret is listed there, and
Unauthenticated otherwise. -/
theorem fallback_policy (digest : String → String) (keys : List ApiKeyRec)
    (envKeys : List String) (k : String) (hk : k ≠ "")
    (hnone : verifyScan digest keys k = none) :
    getApiKey digest keys envKeys (some k) =
      (if envKeys = [] then AuthOutcome.devMode
       else if k ∈ envKeys then AuthOutcome.envAccepted
       else AuthOutcome.unauthenticated) := by
  by_cases henv : envKeys = [] <;> by_cases hmem : k ∈ envKeys <;>
    simp [getApiKey, scanIfPresented, hnone, hk, henv, hmem]

/-- Witness for C2 (amended): a non-matching secret against a non-empty
store with an empty allow-list lands in dev mode. -/
theorem fallback_policy_witness :
    getApiKey cDigest c2Keys [] (some "wrong-secret") =
      (if ([] : List String) = [] then AuthOutcome.devMode
       else if "wrong-secret" ∈ ([] : List String) then AuthOutcome.envAccepted
       else AuthOutcome.unauthenticated) :=
  fallback_policy cDigest c2Keys [] "wrong-secret" (by decide) (by decide)

/-- If `get_api_key` reports a DB-backed match, that record was produced by
the active-key scan on a presented secret. -/
theorem getApiKey_matched (digest : String → String) (keys : List ApiKeyRec)
    (envKeys : List String) (apiKey : Option String) (rec : ApiKeyRec)
    (h : getApiKey digest keys envKeys apiKey = .matched rec) :
    ∃ k, apiKey = some k ∧ verifyScan digest keys k = some rec := by
  cases apiKey with
  | none =>
    exfalso
    simp only [getApiKey, scanIfPresented] at h
    split at h <;> cases h
  | some k =>
    by_cases hk : k ≠ ""
    · simp only [getApiKey, scanIfPresented, if_pos hk] at h
      cases hscan : verifyScan digest keys k with
      | some r =>
        simp only [hscan, AuthOutcome.matched.injEq] at h
        subst h
        exact ⟨k, rfl, hscan⟩
      | none =>
        exfalso
        simp only [hscan] at h
        by_cases henv : envKeys = []
        · rw [if_pos henv] at h
          cases h
        · rw [if_neg henv] at h
          by_cases hc : k ≠ "" ∧ k ∈ envKeys
          · rw [if_pos hc] at h
            cases h
          · rw [if_neg hc] at h
            cases h
    · exfalso
      simp only [getApiKey, scanIfPresented, if_neg hk] at h
      by_cases henv : envKeys = []
      · rw [if_pos henv] at h
        cases h
      · rw [if_neg henv] at h
        by_cases hc : k ≠ "" ∧ k ∈ envKeys
        · rw [if_pos hc] at h
          cases h
        · rw [if_neg hc] at h
          cases h

/-- A record returned by the scan is a member of the store and is active. -/
theorem verifyScan_mem_active (digest : String → String)
    (keys : List ApiKeyRec) (apiKey : String) (rec : ApiKeyRec)
    (h : verifyScan digest keys apiKey = some rec) :
    rec ∈ keys ∧ rec.is_active = true := by
  unfold verifyScan at h
  have hmem := List.mem_of_find?_eq_some h
  rw [List.mem_filter] at hmem
  exact ⟨hmem.1, by simpa using hmem.2⟩

/-- After `revoke`, any still-active record has a different id. -/
theorem revoke_inactive (keys : List ApiKeyRec) (kid : ℕ) (rec : ApiKeyRec)
    (hmem : rec ∈ revoke keys kid) (hact : rec.is_active = true) :
    rec.id ≠ kid := by
  unfold revoke at hmem
  rw [List.mem_map] at hmem
  obtain ⟨r, hr, heq⟩ := hmem
  by_cases hid : r.id = kid
  · rw [if_pos hid] at heq
    subst heq
    simp at hact
  · rw [if_neg hid] at heq
    subst heq
    exact hid

/-- C7: once a KeyRecord is revoked (its active flag set false), no
verification in any subsequent sequence of presentations returns that record
— verification is read-only on the key table and scans only active rows. -/
theorem revoked_key_never_verifies (digest : String → String)
    (keys : List ApiKeyRec) (envKeys : List String) (kid : ℕ)
    (secrets : List String) (o : AuthOutcome)
    (ho : o ∈ presentations digest (revoke keys kid) envKeys secrets)
    (rec : ApiKeyRec) (hrec : o = .matched rec) : rec.id ≠ kid := by
  unfold presentations at ho
  rw [List.mem_map] at ho
  obtain ⟨s, hs, hgot⟩ := ho
  rw [hrec] at hgot
  obtain ⟨k, hk, hscan⟩ :=
    getApiKey_matched digest (revoke keys kid) envKeys (some s) rec hgot
  obtain ⟨hmem, hact⟩ :=
    verifyScan_mem_active digest (revoke keys kid) k rec hscan
  exact revoke_inactive keys kid rec hmem hact

/-- Witness for C7: with key 1 revoked, presenting the secret of key 2
matches key 2, whose id differs from the revoked id. -/
theorem revoked_key_never_verifies_witness : c7MatchedRec.id ≠ 1 :=
  revoked_key_never_verifies cDigest c7Keys [] 1 ["beta-secret"]
    (AuthOutcome.matched c7MatchedRec) (by decide) c7MatchedRec rfl

/-- C10 counterexample: with empty prefix and byte size 0
(`secrets.token_urlsafe(0) = ""`) the generated plaintext is the empty
string; the freshly stored record is active and its hash matches, yet the
`if api_key:` truthiness guard skips the scan for the empty secret, so the
presentation is not accepted (with a non-empty allow-list it is rejected as
unauthenticated). -/
theorem empty_key_not_accepted :
    (generate_key cDigest "" "" "somesalt").1 = "" ∧
    hash_key cDigest c10FreshRec.key_salt (generate_key cDigest "" "" "somesalt").1 =
      c10FreshRec.key_hash ∧
    c10FreshRec.is_active = true ∧
    getApiKey cDigest [c10FreshRec] ["legacy-secret"]
      (some (generate_key cDigest "" "" "somesalt").1) =
      AuthOutcome.unauthenticated := by
  decide

/-- C10 amended: key generation always returns a plaintext that begins with
the prefix and whose hash recomputes via `hash_key`; and whenever the
resulting plaintext is non-empty (always the case for a positive byte size
or non-empty prefix), a store containing the fresh record
`(salt, hash, active = true)` accepts the presented plaintext: verification
returns a matched record. -/
theorem generated_key_roundtrip (digest : String → String)
    (pfx raw salt : String) (freshRec : ApiKeyRec)
    (keys : List ApiKeyRec) (envKeys : List String)
    (hmem : freshRec ∈ keys)
    (hsalt : freshRec.key_salt = salt)
    (hhash : freshRec.key_hash = (generate_key digest pfx raw salt).2.2)
    (hact : freshRec.is_active = true) :
    (∃ rest, (generate_key digest pfx raw salt).1 = pfx ++ rest) ∧
    hash_key digest salt (generate_key digest pfx raw salt).1 =
      (generate_key digest pfx raw salt).2.2 ∧
    ((generate_key digest pfx raw salt).1 ≠ "" →
      ∃ rec, getApiKey digest keys envKeys
        (some (generate_key digest pfx raw salt).1) = .matched rec) := by
  refine ⟨⟨raw, rfl⟩, rfl, fun hne => ?_⟩
  have hx : freshRec ∈ keys.filter (fun rec => rec.is_active) := by
    rw [List.mem_filter]
    exact ⟨hmem, hact⟩
  have hpred : (hash_key digest freshRec.key_salt
      (generate_key digest pfx raw salt).1 == freshRec.key_hash) = true := by
    rw [hsalt, hhash]
    simp [hash_key, generate_key]
  cases hscan : verifyScan digest keys (generate_key digest pfx raw salt).1 with
  | none =>
    exfalso
    unfold verifyScan at hscan
    exact absurd hpred (List.find?_eq_none.mp hscan freshRec hx)
  | some rec =>
    refine ⟨rec, ?_⟩
    simp only [getApiKey, scanIfPresented, if_pos hne, hscan]

/-- Witness for C10 (amended): a key generated with prefix "pal_live_" and
token "r" is accepted by the scan against the store holding its record. -/
theorem generated_key_roundtrip_witness :
    ∃ rec, getApiKey cDigest [c10WitnessRec] []
      (some (generate_key cDigest "pal_live_" "r" "s").1) =
      AuthOutcome.matched rec :=
  (generated_key_roundtrip cDigest "pal_live_" "r" "s" c10WitnessRec
    [c10WitnessRec] [] (by decide) (by decide) (by decide) (by decide)).2.2
    (by decide)

/-- C1: the audit logger persists nothing, on every path and for every
storage behaviour: the `RequestLog(...)` call passes keywords `size_bytes`
and `payload_json`, but the declarative model maps `request_size_bytes` and
`moderation_result`, so the constructor raises `TypeError`, which
`_log_usage` swallows — the request-log table is returned unchanged (so no
request ever gets its one AuditLogRecord). -/
theorem logUsage_persists_nothing (sessionOk serializeOk dbOk : Bool)
    (store : List RequestLogRec) (rec : RequestLogRec) :
    logUsage sessionOk serializeOk dbOk store rec = .ok store := by
  have hctor : ctorAccepts = false := by decide
  unfold logUsage logUsageAttempt
  rw [hctor]
  cases sessionOk <;> cases serializeOk <;> cases dbOk <;> rfl

/-- C8: `_log_usage` never raises — every internal failure (session
creation, serialization, constructor, commit) is swallowed — and the
already-determined response returned alongside it is unchanged by any
storage behaviour. -/
theorem logUsage_never_throws_response_unchanged
    (sessionOk serializeOk dbOk : Bool) (store : List RequestLogRec)
    (rec : RequestLogRec) (resp : HttpResponse) :
    (∃ s, logUsage sessionOk serializeOk dbOk store rec = .ok s) ∧
    (respondAndLog resp sessionOk serializeOk dbOk store rec).1 = resp := by
  constructor
  · cases h : logUsageAttempt sessionOk serializeOk dbOk store rec with
    | ok s => exact ⟨s, by unfold logUsage; rw [h]⟩
    | error e => exact ⟨store, by unfold logUsage; rw [h]⟩
  · rfl

/-- C9: the capture middleware re-presents exactly the original bytes (the
concatenation of the original chunks) and the original status code. -/
theorem capture_preserves_bytes_and_status (resp : CapturedResponse)
    (reqId : String) :
    flattenChunks (dispatchCapture resp reqId).chunks =
      flattenChunks resp.chunks ∧
    (dispatchCapture resp reqId).status_code = resp.status_code := by
  constructor
  · show flattenChunks [flattenChunks resp.chunks] = flattenChunks resp.chunks
    simp [flattenChunks]
  · rfl

/-- C3 counterexample: empty collaborator content cannot be parsed as the
structured verdict (`json.loads` fails on it), yet both endpoints return an
ordinary 200 result with the verdict defaulted to safe — not an upstream
error. -/
theorem empty_content_defaults_safe :
    noParse "" = none ∧
    moderateImageFromContent noParse noFloat "" =
      .ok { safe := true, categories := .arr [], confidence := 0,
            suggested_action := .str "allow" } ∧
    moderateContextualFromContent noParse "" =
      .ok { safe := true, risk_factors := .arr [],
            suggested_action := .str "allow" } :=
  ⟨rfl, rfl, rfl⟩

/-- C3 amended: for empty collaborator content both endpoints return the
safe-defaulted 200 verdict (safe = true, empty categories / risk factors,
action "allow"); for non-empty content on which `json.loads` fails,
`_extract_json` raises (its recursive-regex fallback is unsupported by the
`re` module), so the handlers fall to their generic exception branch (a 500
internal error) — in neither case a distinguished upstream error. -/
theorem unparseable_content_behaviour (loads : String → Option Json)
    (floatOfStr : String → Option ℚ) (text : String) :
    (moderateImageFromContent loads floatOfStr "" =
       .ok { safe := true, categories := .arr [], confidence := 0,
             suggested_action := .str "allow" } ∧
     moderateContextualFromContent loads "" =
       .ok { safe := true, risk_factors := .arr [],
             suggested_action := .str "allow" }) ∧
    (text ≠ "" → loads text = none →
      moderateImageFromContent loads floatOfStr text = .error () ∧
      moderateContextualFromContent loads text = .error ()) := by
  refine ⟨⟨rfl, rfl⟩, fun ht hl => ?_⟩
  have he : extractJson loads text = .error () := by
    unfold extractJson
    rw [if_neg ht, hl]
  constructor
  · unfold moderateImageFromContent
    rw [he]
    rfl
  · unfold moderateContextualFromContent
    rw [he]
    rfl

/-- Witness for C3 (amended): content that is non-empty and unparseable
makes both endpoints raise to their generic 500 branch. -/
theorem unparseable_content_behaviour_witness :
    moderateImageFromContent noParse noFloat "not json" = .error () ∧
    moderateContextualFromContent noParse "not json" = .error () :=
  (unparseable_content_behaviour noParse noFloat "not json").2
    (by decide) rfl

end Palisade
